import Mathlib

/-!
Verification of the pymeasure instrument-driver core (Toptica DLC Pro,
Siglent SDG1032X, Agiltron optical switch) against its natural-language
specification.  The Python drivers are shallowly embedded: each method
becomes a pure Lean function, with the SDK client modelled as an oracle
from parameter names to outcomes, and exceptions modelled by explicit
result types.
-/

namespace Pymeasure

/-- Outcome of a single `client.get(param)` call in the Toptica SDK model.
`decopError` models a `DecopError` raised by the SDK (device-level
rejection, e.g. unknown parameter); `otherError` models any other Python
exception (connection-level / transport failure, caught by the code's
bare `except Exception` clauses). -/
inductive DResult where
  | ok (v : String)
  | decopError (msg : String)
  | otherError (msg : String)
deriving DecidableEq, Repr

/-- True when the modelled `client.get` call returned normally. -/
def DResult.isOk : DResult → Bool
  | .ok _ => true
  | _ => false

/-- Embedding of `TopticaDLCPro._open_connection`'s laser-type
classification: `laser_type == "CTL"` gives "CTL", a type string
containing "BoosTApro" gives "TA", anything else gives "Unknown". -/
def detect_laser_type (s : String) : String :=
  if s = "CTL" then "CTL"
  else if "BoosTApro".toList <:+: s.toList then "TA"
  else "Unknown"

/-- Embedding of `TopticaDLCPro._get_default_parameter_list`. -/
def default_parameter_list (lt : String) : List String :=
  if lt = "CTL" then
    ["laser1:ctl:wavelength-set",
     "laser1:ctl:wavelength-act",
     "laser1:scan:offset",
     "laser1:ctl:wavelength-max",
     "laser1:ctl:wavelength-min",
     "laser1:dl:pc:voltage-max",
     "laser1:dl:pc:voltage-min",
     "laser1:dl:cc:current-set",
     "laser1:dl:cc:current-act",
     "laser1:dl:cc:current-clip",
     "laser1:type",
     "emission"]
  else if lt = "TA" then
    ["ampcc1:channel1:current-set",
     "ampcc1:channel1:current-act",
     "laser1:amp:tc:temp-act",
     "laser1:amp:tc:temp-set",
     "laser1:amp:tc:temp-set-min",
     "laser1:amp:tc:temp-set-max",
     "ampcc1:channel1:current-clip-limit",
     "laser1:type",
     "emission"]
  else
    ["laser1:type", "emission"]

/-- Embedding of the `additional_params` list built inside
`TopticaDLCPro._get_enhanced_parameter_list` (the common block plus the
laser-type-specific `extend` calls). -/
def additional_parameter_list (lt : String) : List String :=
  ["system:uptime",
   "system:serial-number",
   "system:model",
   "fw:version",
   "cc1:board-temp",
   "tc1:board-temp"] ++
  (if lt = "CTL" then
    ["laser1:dl:tc:temp-act",
     "laser1:dl:tc:temp-set",
     "laser1:ctl:mode",
     "laser1:ctl:state"]
  else if lt = "TA" then
    ["laser1:amp:photodiode",
     "laser1:amp:state"]
  else [])

/-- Decidability of the lexicographic string order routed through the
character lists, so that concrete sorts evaluate inside the kernel
(the built-in `String.decidableLE` relies on `String.ltb`, whose
well-founded recursion does not reduce definitionally). -/
def strLeDec : DecidableRel (α := String) (· ≤ ·) :=
  fun a b => decidable_of_iff (a.toList ≤ b.toList) (@String.le_iff_toList_le a b).symm

/-- Embedding of `TopticaDLCPro._get_enhanced_parameter_list`:
`sorted(list(set(base_params + additional_params)))`.  The Python `set`
round-trip deduplicates; `sorted` then fixes the ascending lexicographic
order, so deduplication followed by an ascending sort is an exact model
of the result. -/
def enhanced_parameter_list (lt : String) : List String :=
  @List.insertionSort String (· ≤ ·) strLeDec
    ((default_parameter_list lt ++ additional_parameter_list lt).dedup)

/-- Embedding of the probing loop inside
`TopticaDLCPro.get_all_supported_parameters`: each candidate is read
through the client; on success it is appended; `except self._decop_error:
continue` skips it on a DecopError; `except Exception: continue` skips it
on any other exception, including connection-level failures. -/
def probe_candidates (client : String → DResult) : List String → List String
  | [] => []
  | p :: rest =>
    match client p with
    | .ok _ => p :: probe_candidates client rest
    | .decopError _ => probe_candidates client rest
    | .otherError _ => probe_candidates client rest

/-- Embedding of `TopticaDLCPro.get_all_supported_parameters` for an open
client: probe every candidate of the enhanced list and return those whose
read succeeded.  The surrounding `try`/`except` fallback to the default
list is unreachable for modelled behaviour because the per-candidate
handlers already absorb every exception. -/
def get_all_supported_parameters (lt : String) (client : String → DResult) : List String :=
  probe_candidates client (enhanced_parameter_list lt)

theorem probe_candidates_eq_filter (client : String → DResult) (l : List String) :
    probe_candidates client l = l.filter (fun p => (client p).isOk) := by
  induction l with
  | nil => rfl
  | cons p rest ih =>
    cases h : client p <;> simp [probe_candidates, h, ih, List.filter, DResult.isOk]

/-- C8: the parameter list returned by dynamic capability discovery is
sorted lexicographically — every adjacent pair of entries is ordered by
the string order (so in particular the whole list is `Sorted (· ≤ ·)`). -/
theorem discovery_result_sorted (lt : String) (client : String → DResult) :
    (get_all_supported_parameters lt client).Sorted (· ≤ ·) ∧
    (get_all_supported_parameters lt client).Chain' (· ≤ ·) := by
  have hsorted : (get_all_supported_parameters lt client).Sorted (· ≤ ·) := by
    rw [get_all_supported_parameters, probe_candidates_eq_filter]
    exact (@List.sorted_insertionSort String (· ≤ ·) strLeDec _ _ _).filter _
  exact ⟨hsorted, List.chain'_iff_pairwise.mpr hsorted⟩

/-- Client oracle used for the discovery scenarios: the read of
"fw:version" (the third candidate of the sorted CTL enhanced list) fails
with a connection-level (non-DecopError) exception, every other read
succeeds. -/
def faultyClient (p : String) : DResult :=
  if p = "fw:version" then .otherError "connection lost" else .ok "1"

/-- C1 counterexample: with a client whose third candidate
("fw:version") raises a connection-level fault, discovery does not abort:
it returns the 21 remaining candidates, including every candidate probed
after the failure (e.g. "tc1:board-temp", the last one).  The claimed
behaviour — a fatal `DiscoveryAborted` on any transport failure — does
not exist in the code: the loop's bare `except Exception: continue`
absorbs the fault exactly like an unknown-parameter rejection. -/
theorem discovery_transport_error_not_fatal :
    (enhanced_parameter_list "CTL").getD 2 "" = "fw:version" ∧
    faultyClient "fw:version" = DResult.otherError "connection lost" ∧
    get_all_supported_parameters "CTL" faultyClient =
      ["cc1:board-temp", "emission",
       "laser1:ctl:mode", "laser1:ctl:state", "laser1:ctl:wavelength-act",
       "laser1:ctl:wavelength-max", "laser1:ctl:wavelength-min",
       "laser1:ctl:wavelength-set", "laser1:dl:cc:current-act",
       "laser1:dl:cc:current-clip", "laser1:dl:cc:current-set",
       "laser1:dl:pc:voltage-max", "laser1:dl:pc:voltage-min",
       "laser1:dl:tc:temp-act", "laser1:dl:tc:temp-set",
       "laser1:scan:offset", "laser1:type", "system:model",
       "system:serial-number", "system:uptime", "tc1:board-temp"] := by
  refine ⟨by decide, by decide, by decide⟩

/-- C1 amended: a connection-level failure on a candidate is absorbed
exactly like an unknown-parameter rejection — the failing candidate is
skipped, discovery continues to the end of the candidate list, and every
candidate whose probe succeeded is returned; no per-candidate error
aborts discovery. -/
theorem discovery_absorbs_transport_errors (lt : String) (client : String → DResult)
    (p e : String) (hp : client p = DResult.otherError e) :
    p ∉ get_all_supported_parameters lt client ∧
    ∀ q ∈ enhanced_parameter_list lt, (client q).isOk →
      q ∈ get_all_supported_parameters lt client := by
  rw [get_all_supported_parameters, probe_candidates_eq_filter]
  constructor
  · intro hmem
    have hac := List.of_mem_filter hmem
    rw [hp] at hac
    simp [DResult.isOk] at hac
  · intro q hq hok
    exact List.mem_filter.mpr ⟨hq, hok⟩

/-- C1 witness: the amended theorem instantiated at the faulty client. -/
theorem discovery_absorbs_transport_errors_witness :
    "fw:version" ∉ get_all_supported_parameters "CTL" faultyClient ∧
    ∀ q ∈ enhanced_parameter_list "CTL", (faultyClient q).isOk →
      q ∈ get_all_supported_parameters "CTL" faultyClient :=
  discovery_absorbs_transport_errors "CTL" faultyClient "fw:version" "connection lost"
    (by decide)

/-- Embedding of the parameter-name selection at the start of
`TopticaDLCPro.get_all_parameters`: with dynamic discovery requested the
names come from `get_all_supported_parameters`, and if that call raises
(`except Exception`) the predefined default list is used instead; with
dynamic discovery not requested the default list is used directly.  The
outcome of the dynamic-discovery call is passed explicitly as an
`Except`. -/
def select_param_names (lt : String) (useDynamic : Bool)
    (discovered : Except String (List String)) : List String :=
  if useDynamic then
    match discovered with
    | .ok names => names
    | .error _ => default_parameter_list lt
  else default_parameter_list lt

/-- Embedding of the `discovery_method` metadata field written by
`TopticaDLCPro.get_all_parameters`: `"dynamic" if use_dynamic_discovery
else "predefined"` — a function of the requested mode only. -/
def discovery_method_tag (useDynamic : Bool) : String :=
  if useDynamic then "dynamic" else "predefined"

/-- Helper: the default parameter list is nonempty for every laser type. -/
theorem default_parameter_list_ne_nil (lt : String) : default_parameter_list lt ≠ [] := by
  unfold default_parameter_list
  split
  · simp
  · split <;> simp

/-- C3 counterexample: when dynamic discovery fails partway, the code
does not return the best-effort set built so far — the selection receives
only the exception and substitutes the full predefined default list — and
the metadata tag still reads "dynamic" although the returned list came
from the predefined fallback, so the tag does not record which list was
actually used. -/
theorem discovery_fallback_counterexample :
    select_param_names "CTL" true (Except.error "discovery failed") =
      default_parameter_list "CTL" ∧
    discovery_method_tag true = "dynamic" := by
  refine ⟨by decide, by decide⟩

/-- C3 amended: if dynamic discovery throws, `get_all_parameters` falls
back to the predefined default parameter list for the detected laser
type (which is nonempty for every laser type, so no empty set is
substituted), discarding any partial probe results; and the
`discovery_method` metadata tag records the requested mode — "dynamic"
when `use_dynamic_discovery` was true, "predefined" otherwise — not the
actual source of the returned list. -/
theorem discovery_fallback_policy (lt err : String)
    (d : Except String (List String)) :
    select_param_names lt true (Except.error err) = default_parameter_list lt ∧
    select_param_names lt false d = default_parameter_list lt ∧
    default_parameter_list lt ≠ [] ∧
    discovery_method_tag true = "dynamic" ∧
    discovery_method_tag false = "predefined" :=
  ⟨rfl, rfl, default_parameter_list_ne_nil lt, rfl, rfl⟩

/-- Embedding of the retrieval loop of `TopticaDLCPro.get_all_parameters`:
each name is read through the client; a successful read stores the value,
a `DecopError` stores the string "ERROR: {error}", and any other
exception propagates out of the method (modelled by `Except.error`),
losing the dictionary built so far. -/
def retrieve_parameters (client : String → DResult) :
    List String → Except String (List (String × String))
  | [] => .ok []
  | n :: rest =>
    match client n with
    | .ok v => (retrieve_parameters client rest).map (fun d => (n, v) :: d)
    | .decopError e =>
        (retrieve_parameters client rest).map (fun d => (n, "ERROR: " ++ e) :: d)
    | .otherError e => .error e

/-- Model of the dictionary returned by `TopticaDLCPro.get_all_parameters`:
the per-parameter entries plus the "_metadata" entry, whose fields of
interest are kept (`parameter_count` counts the attempted names, not the
metadata entry itself). -/
structure AllParameters where
  entries : List (String × String)
  metadata_laser_type : String
  metadata_parameter_count : Nat
  metadata_discovery_method : String
deriving DecidableEq, Repr

/-- Embedding of `TopticaDLCPro.get_all_parameters` for an open client:
select the parameter names, retrieve each one, then attach the metadata
entry. -/
def get_all_parameters (lt : String) (useDynamic : Bool)
    (discovered : Except String (List String)) (client : String → DResult) :
    Except String AllParameters :=
  let names := select_param_names lt useDynamic discovered
  (retrieve_parameters client names).map (fun d =>
    { entries := d
      metadata_laser_type := lt
      metadata_parameter_count := names.length
      metadata_discovery_method := discovery_method_tag useDynamic })

theorem retrieve_parameters_keys (client : String → DResult) :
    ∀ (names : List String) (d : List (String × String)),
      retrieve_parameters client names = .ok d → d.map Prod.fst = names := by
  intro names
  induction names with
  | nil => intro d hd; cases hd; rfl
  | cons n rest ih =>
    intro d hd
    rw [retrieve_parameters] at hd
    cases hcl : client n <;> rw [hcl] at hd
    · cases hrest : retrieve_parameters client rest <;> rw [hrest] at hd
      · cases hd
      · cases hd
        simpa using ih _ hrest
    · cases hrest : retrieve_parameters client rest <;> rw [hrest] at hd
      · cases hd
      · cases hd
        simpa using ih _ hrest
    · cases hd

theorem retrieve_parameters_values (client : String → DResult) :
    ∀ (names : List String) (d : List (String × String)),
      retrieve_parameters client names = .ok d →
      ∀ n v, (n, v) ∈ d →
        client n = .ok v ∨ ∃ e, client n = .decopError e ∧ v = "ERROR: " ++ e := by
  intro names
  induction names with
  | nil =>
    intro d hd n v hmem
    cases hd
    simp at hmem
  | cons m rest ih =>
    intro d hd n v hmem
    rw [retrieve_parameters] at hd
    cases hcl : client m <;> rw [hcl] at hd
    · cases hrest : retrieve_parameters client rest <;> rw [hrest] at hd
      · cases hd
      · cases hd
        rcases List.mem_cons.mp hmem with h | h
        · cases h; exact Or.inl hcl
        · exact ih _ hrest n v h
    · cases hrest : retrieve_parameters client rest <;> rw [hrest] at hd
      · cases hd
      · cases hd
        rcases List.mem_cons.mp hmem with h | h
        · cases h; exact Or.inr ⟨_, hcl, rfl⟩
        · exact ih _ hrest n v h
    · cases hd

/-- C10: when `get_all_parameters` returns a dictionary, it has an entry
for every candidate name — names whose retrieval failed with a device
(Decop) error are retained with an "ERROR: ..." string value, never
omitted — and the metadata `parameter_count` equals the number of
candidate names attempted, not counting the metadata entry itself. -/
theorem get_all_parameters_complete (lt : String) (useDynamic : Bool)
    (discovered : Except String (List String)) (client : String → DResult)
    (r : AllParameters)
    (hr : get_all_parameters lt useDynamic discovered client = .ok r) :
    (∀ n ∈ select_param_names lt useDynamic discovered,
      ∃ v, (n, v) ∈ r.entries ∧
        (client n = .ok v ∨ ∃ e, client n = .decopError e ∧ v = "ERROR: " ++ e)) ∧
    r.metadata_parameter_count = (select_param_names lt useDynamic discovered).length := by
  rw [get_all_parameters] at hr
  cases hret : retrieve_parameters client (select_param_names lt useDynamic discovered) <;>
    rw [hret] at hr
  · cases hr
  · cases hr
    constructor
    · intro n hn
      have hkeys := retrieve_parameters_keys client _ _ hret
      rw [← hkeys] at hn
      rcases List.mem_map.mp hn with ⟨⟨n', v⟩, hmem, hfst⟩
      cases hfst
      exact ⟨v, hmem, retrieve_parameters_values client _ _ hret _ _ hmem⟩
    · rfl

/-- C10 witness: a client that answers every name except "emission",
which fails with a DecopError, over the predefined CTL list. -/
theorem get_all_parameters_complete_witness :
    (∀ n ∈ select_param_names "CTL" false (Except.error "unused"),
      ∃ v, (n, v) ∈ (AllParameters.mk
          ((default_parameter_list "CTL").map (fun n =>
            if n = "emission" then (n, "ERROR: unknown") else (n, "1")))
          "CTL" 12 "predefined").entries ∧
        ((fun p => if p = "emission" then DResult.decopError "unknown"
          else DResult.ok "1") n = .ok v ∨
         ∃ e, (fun p => if p = "emission" then DResult.decopError "unknown"
          else DResult.ok "1") n = .decopError e ∧ v = "ERROR: " ++ e)) ∧
    (AllParameters.mk
          ((default_parameter_list "CTL").map (fun n =>
            if n = "emission" then (n, "ERROR: unknown") else (n, "1")))
          "CTL" 12 "predefined").metadata_parameter_count =
      (select_param_names "CTL" false (Except.error "unused")).length :=
  get_all_parameters_complete "CTL" false (Except.error "unused")
    (fun p => if p = "emission" then DResult.decopError "unknown" else DResult.ok "1")
    _ rfl

/-- Embedding of Python `str.split(',')` on the character list: split at
every comma, keeping empty pieces (so the empty string yields `[[]]`,
one empty token, exactly as in Python). -/
def split_commas : List Char → List (List Char)
  | [] => [[]]
  | c :: rest =>
    let r := split_commas rest
    if c = ',' then [] :: r
    else
      match r with
      | [] => [[c]]
      | t :: ts => (c :: t) :: ts

/-- Embedding of the pairing loop in
`SDG1032XChannel.get_waveform_settings`: for every even index `i` it
stores `settings[settings_str[i]] = settings_str[i + 1]`.  When the token
list has odd length the final even index reads `settings_str[i + 1]` out
of bounds; `none` models that `IndexError`.  The mapping is kept as the
ordered list of key/value pairs. -/
def pair_adjacent_tokens : List (List Char) → Option (List (List Char × List Char))
  | [] => some []
  | [_] => none
  | k :: v :: rest => (pair_adjacent_tokens rest).map (fun d => (k, v) :: d)

/-- Embedding of `SDG1032XChannel.get_waveform_settings` applied to the
response text: `settings_str = response[8:].split(',')` — a fixed
8-character command-echo slice — followed by adjacent-token pairing. -/
def get_waveform_settings (response : List Char) : Option (List (List Char × List Char)) :=
  pair_adjacent_tokens (split_commas (response.drop 8))

/-- C2 counterexample: the response `"ECHO,KEY1,10,KEY2,20"` of the
spec's scenario does not parse to `{"KEY1": "10", "KEY2": "20"}` — the
code always discards 8 characters, not the declared 5-character echo, so
the tokens are `["1", "10", "KEY2", "20"]` and the mapping comes out as
`{"1": "10", "KEY2": "20"}`. -/
theorem keyed_block_five_char_echo_counterexample :
    get_waveform_settings "ECHO,KEY1,10,KEY2,20".toList =
      some [("1".toList, "10".toList), ("KEY2".toList, "20".toList)] ∧
    get_waveform_settings "ECHO,KEY1,10,KEY2,20".toList ≠
      some [("KEY1".toList, "10".toList), ("KEY2".toList, "20".toList)] := by
  refine ⟨by decide, by decide⟩

/-- C2 amended: the keyed-block parser discards a fixed 8-character
command-echo prefix (the length of the device's `"C1:BSWV "` echo) and
then pairs adjacent comma-separated tokens into an ordered key-to-value
mapping; with an 8-character echo the scenario's expected mapping is
produced. -/
theorem keyed_block_parse_eight_char_echo :
    get_waveform_settings "C1:BSWV KEY1,10,KEY2,20".toList =
      some [("KEY1".toList, "10".toList), ("KEY2".toList, "20".toList)] := by
  decide

/-- Embedding of Python `str.split()` with no argument (used by the
`output_enabled` get-processing lambda): split on runs of ASCII
whitespace, discarding empty pieces.  `acc` accumulates the current
token in reverse. -/
def split_ws_aux (acc : List Char) : List Char → List (List Char)
  | [] => if acc = [] then [] else [acc.reverse]
  | c :: rest =>
    if c.isWhitespace then
      if acc = [] then split_ws_aux [] rest
      else acc.reverse :: split_ws_aux [] rest
    else split_ws_aux (c :: acc) rest

/-- Whitespace split of a token list, Python `str.split()`. -/
def split_ws (cs : List Char) : List (List Char) := split_ws_aux [] cs

/-- Embedding of the `output_enabled` get-processing lambda:
`v[0].split()[-1] == "ON" if len(v) > 0 else False`.  `none` models the
`IndexError` of `[-1]` on an empty split result. -/
def output_enabled_get_process (v : List String) : Option Bool :=
  match v with
  | [] => some false
  | x :: _ =>
    match (split_ws x.toList).getLast? with
    | some t => some (t == "ON".toList)
    | none => none

/-- Embedding of the `output_polarity` get-processing lambda:
`v[6] if len(v) > 6 else "NOR"`. -/
def output_polarity_get_process (v : List String) : String :=
  if h : 6 < v.length then v.get ⟨6, h⟩ else "NOR"

/-- Embedding of the `output_load` get-processing lambda:
`v[2] if len(v) > 2 else "HZ"`. -/
def output_load_get_process (v : List String) : String :=
  if h : 2 < v.length then v.get ⟨2, h⟩ else "HZ"

/-- Embedding of the `noise_addition_enabled` get-processing lambda:
`v[1] == "ON" if len(v) > 1 else False`. -/
def noise_addition_get_process (v : List String) : Bool :=
  if h : 1 < v.length then v.get ⟨1, h⟩ == "ON" else false

/-- C6 counterexample: the claim covers "each response parser", but the
keyed-block waveform-settings parser indexes out of bounds on a short
response: the truncated response "C1:BSWV WVTP" leaves the single token
`["WVTP"]` after the echo strip, and the pairing loop reads index 1 out
of bounds (`none` models the `IndexError`) instead of returning a
documented default. -/
theorem keyed_block_short_response_counterexample :
    get_waveform_settings "C1:BSWV WVTP".toList = none := by decide

/-- C6 amended: the four per-attribute get-processing parsers do return
their documented defaults (`False`, "NOR", "HZ", `False`) whenever the
token list is shorter than the position they read, but the keyed-block
waveform-settings parser does not share this fallback — on an odd-length
token list (a truncated response) it raises `IndexError`. -/
theorem short_response_defaults :
    (∀ v : List String, v = [] → output_enabled_get_process v = some false) ∧
    (∀ v : List String, v.length ≤ 6 → output_polarity_get_process v = "NOR") ∧
    (∀ v : List String, v.length ≤ 2 → output_load_get_process v = "HZ") ∧
    (∀ v : List String, v.length ≤ 1 → noise_addition_get_process v = false) := by
  refine ⟨?_, ?_, ?_, ?_⟩
  · intro v hv; cases hv; rfl
  · intro v hv
    rw [output_polarity_get_process, dif_neg]
    omega
  · intro v hv
    rw [output_load_get_process, dif_neg]
    omega
  · intro v hv
    rw [noise_addition_get_process, dif_neg]
    omega

/-- C6 witness: the amended theorem instantiated at the empty token
list. -/
theorem short_response_defaults_witness :
    output_enabled_get_process [] = some false ∧
    output_polarity_get_process [] = "NOR" ∧
    output_load_get_process [] = "HZ" ∧
    noise_addition_get_process [] = false :=
  ⟨short_response_defaults.1 [] rfl,
   short_response_defaults.2.1 [] (by decide),
   short_response_defaults.2.2.1 [] (by decide),
   short_response_defaults.2.2.2 [] (by decide)⟩

/-- Wire operations the Agiltron driver can perform on its transport.
`read` never occurs in the embedded methods; it is included so that
"no read is attempted" is a statement about the trace, not about the
type. -/
inductive SwitchOp where
  | writeText (s : String)
  | writeRaw (bs : List Nat)
  | read
deriving DecidableEq, Repr

/-- Embedding of the `_channel_range` set up in
`AgiltronOpticalSwitch.__init__`: `range(1, 9)` for the 1x8 switch,
`range(1, 3)` otherwise. -/
def channel_range (switchType : String) : List Int :=
  if switchType = "1x8" then [1, 2, 3, 4, 5, 6, 7, 8] else [1, 2]

/-- Embedding of the binary frame chosen in the 1x2 branch of the
`channel` setter; `none` models the `NameError` that the unbound `msg`
would raise for any other value (unreachable after validation). -/
def binary_frame (value : Int) : Option (List Nat) :=
  if value = 1 then some [0x01, 0x12, 0x00, 0x01]
  else if value = 2 then some [0x01, 0x12, 0x00, 0x02]
  else none

/-- Embedding of the `AgiltronOpticalSwitch.channel` setter: validate the
value against the channel range (raising `ValueError` before any wire
output), then either write the text command `*SW00{value}` (1x8) or the
4-byte binary frame (1x2).  The result is the ordered trace of wire
operations together with the raised error, if any. -/
def channel_set (switchType : String) (value : Int) : List SwitchOp × Option String :=
  if value ∉ channel_range switchType then
    ([], some ("Channel " ++ toString value ++ " is not valid for this switch"))
  else if switchType = "1x8" then
    ([SwitchOp.writeText ("*SW00" ++ toString value)], none)
  else
    match binary_frame value with
    | some msg => ([SwitchOp.writeRaw msg], none)
    | none => ([], some "NameError: msg referenced before assignment")

/-- C7: on the 1x2 binary-protocol switch, setting the channel to 2
emits exactly the 4-byte frame `[0x01, 0x12, 0x00, 0x02]`, setting it to
1 emits exactly `[0x01, 0x12, 0x00, 0x01]`, and in both cases the trace
contains no read — no acknowledgement frame is read back. -/
theorem binary_channel_frames :
    channel_set "1x2" 2 = ([SwitchOp.writeRaw [0x01, 0x12, 0x00, 0x02]], none) ∧
    channel_set "1x2" 1 = ([SwitchOp.writeRaw [0x01, 0x12, 0x00, 0x01]], none) ∧
    (∀ op ∈ (channel_set "1x2" 2).1, op ≠ SwitchOp.read) ∧
    (∀ op ∈ (channel_set "1x2" 1).1, op ≠ SwitchOp.read) := by
  refine ⟨by decide, by decide, by decide, by decide⟩

/-- Wire operations of the Toptica SDK client model: parameter reads and
parameter writes.  Values are modelled as exact rationals, which is
faithful for the order comparisons the driver performs. -/
inductive WireOp where
  | getp (name : String)
  | setp (name : String) (value : Rat)
deriving DecidableEq, Repr

/-- Embedding of the `TopticaDLCPro.wavelength` getter: a variant check
against "CTL" before any I/O, then a single read of
`laser1:ctl:wavelength-set`. -/
def wavelength_get (lt : String) (client : String → Rat) :
    List WireOp × Except String Rat :=
  if lt ≠ "CTL" then ([], .error "This property is only available for CTL lasers")
  else ([WireOp.getp "laser1:ctl:wavelength-set"],
        .ok (client "laser1:ctl:wavelength-set"))

/-- Embedding of the `TopticaDLCPro.wavelength` setter: variant check,
reads of the device's wavelength-min and wavelength-max limits, the
inclusive-range validation `value < wl_min or value > wl_max` raising
`ValueError` before the write, and finally the single parameter write. -/
def wavelength_set (lt : String) (client : String → Rat) (value : Rat) :
    List WireOp × Option String :=
  if lt ≠ "CTL" then ([], some "This property is only available for CTL lasers")
  else
    let wlMin := client "laser1:ctl:wavelength-min"
    let wlMax := client "laser1:ctl:wavelength-max"
    let tr := [WireOp.getp "laser1:ctl:wavelength-min",
               WireOp.getp "laser1:ctl:wavelength-max"]
    if value < wlMin ∨ value > wlMax then
      (tr, some "Wavelength must be between wl_min nm and wl_max nm")
    else
      (tr ++ [WireOp.setp "laser1:ctl:wavelength-set" value], none)

/-- C4: for every value outside the declared inclusive range, the
setter raises a validation error and its wire trace contains no
parameter write (Toptica wavelength: the only prior I/O is the two limit
reads) — and the Agiltron channel setter rejects an out-of-range channel
with no wire operation at all. -/
theorem out_of_range_rejected_before_write (lt : String) (client : String → Rat)
    (value : Rat) (st : String) (ch : Int)
    (hwl : value < client "laser1:ctl:wavelength-min" ∨
           value > client "laser1:ctl:wavelength-max")
    (hch : ch ∉ channel_range st) :
    ((wavelength_set lt client value).2.isSome ∧
     ∀ op ∈ (wavelength_set lt client value).1, ∀ n v, op ≠ WireOp.setp n v) ∧
    ((channel_set st ch).1 = [] ∧ (channel_set st ch).2.isSome) := by
  constructor
  · rw [wavelength_set]
    split
    · simp
    · rw [if_pos hwl]
      simp
  · rw [channel_set, if_pos hch]
    simp

/-- C4 witness: value 1700 against device limits [1500, 1600], and
channel 5 on the 1x2 switch. -/
theorem out_of_range_rejected_before_write_witness :
    ((wavelength_set "CTL" (fun _ => (1600 : Rat)) 1700).2.isSome ∧
     ∀ op ∈ (wavelength_set "CTL" (fun _ => (1600 : Rat)) 1700).1,
       ∀ n v, op ≠ WireOp.setp n v) ∧
    ((channel_set "1x2" 5).1 = [] ∧ (channel_set "1x2" 5).2.isSome) :=
  out_of_range_rejected_before_write "CTL" (fun _ => (1600 : Rat))
    1700 "1x2" 5 (Or.inr (by norm_num)) (by decide)

/-- C5: a device reporting exactly "CTL" is detected as the CTL variant;
a device whose type string contains "BoosTApro" is detected as TA, and a
CTL-only descriptor access (wavelength) on it fails with the
unsupported-for-variant error and an empty wire trace (the variant check
comes before any I/O); any unmatched type string is detected as
Unknown. -/
theorem variant_gate_detection (t u : String) (client : String → Rat)
    (ht : "BoosTApro".toList <:+: t.toList)
    (hu1 : u ≠ "CTL") (hu2 : ¬ "BoosTApro".toList <:+: u.toList) :
    detect_laser_type "CTL" = "CTL" ∧
    detect_laser_type t = "TA" ∧
    detect_laser_type u = "Unknown" ∧
    wavelength_get (detect_laser_type t) client =
      ([], Except.error "This property is only available for CTL lasers") := by
  have htn : t ≠ "CTL" := by
    intro h
    subst h
    have := ht.length_le
    simp at this
  have hta : detect_laser_type t = "TA" := by
    rw [detect_laser_type, if_neg htn, if_pos ht]
  refine ⟨rfl, hta, ?_, ?_⟩
  · rw [detect_laser_type, if_neg hu1, if_neg hu2]
  · rw [hta, wavelength_get]
    simp

/-- C5 witness: type strings "NewFocus BoosTApro 4000" (TA) and
"DL 100" (Unknown). -/
theorem variant_gate_detection_witness :
    detect_laser_type "CTL" = "CTL" ∧
    detect_laser_type "NewFocus BoosTApro 4000" = "TA" ∧
    detect_laser_type "DL 100" = "Unknown" ∧
    wavelength_get (detect_laser_type "NewFocus BoosTApro 4000") (fun _ => 0) =
      ([], Except.error "This property is only available for CTL lasers") :=
  variant_gate_detection "NewFocus BoosTApro 4000" "DL 100" (fun _ => 0)
    (by decide) (by decide) (by decide)

/-- Model of `TopticaDLCPro.shutdown`: `try: if self.client:
self.client.close()` (any exception from `close` is caught and logged),
`finally: self.client = None; super().shutdown()` (the parent shutdown is
an external collaborator, treated as a no-op).  Result: the new client
handle, the propagated exception (always none), and the list of `close`
calls issued. -/
def shutdown_run (client : Option (String → DResult)) (closeRaises : Bool) :
    Option (String → DResult) × Option String × List String :=
  match client with
  | some _ => (none, none, if closeRaises then ["close"] else ["close"])
  | none => (none, none, [])

/-- Embedding of `TopticaDLCPro._get_parameter`: a closed client raises
`ConnectionError("Connection not open")` with no I/O; otherwise one read
is issued and a `DecopError` is re-raised as the documented `ValueError`
(any other exception propagates unchanged).  The second component is the
list of client reads issued. -/
def get_parameter_run (client : Option (String → DResult)) (p : String) :
    Except String String × List String :=
  match client with
  | none => (.error "Connection not open", [])
  | some c =>
    match c p with
    | .ok v => (.ok v, [p])
    | .decopError e => (.error ("Error retrieving parameter " ++ p ++ ": " ++ e), [p])
    | .otherError e => (.error e, [p])

/-- Embedding of `TopticaDLCPro._set_parameter`, analogous to
`_get_parameter`; the second component is the list of client writes
issued. -/
def set_parameter_run (client : Option (String → DResult)) (p v : String) :
    Except String Unit × List String :=
  match client with
  | none => (.error "Connection not open", [])
  | some _ => (.ok (), [p])

/-- C9: after shutdown the client handle is `none`; shutdown itself
never propagates an exception (a failing `close` is caught); a second
shutdown on the already-shut-down instrument again raises nothing and
touches no client; and every subsequent `get_parameter` or
`set_parameter` fails with "Connection not open" while issuing zero
client calls. -/
theorem shutdown_closes_connection (client : Option (String → DResult))
    (b b' : Bool) (p v : String) :
    (shutdown_run client b).1 = none ∧
    (shutdown_run client b).2.1 = none ∧
    (shutdown_run (shutdown_run client b).1 b').2.1 = none ∧
    (shutdown_run (shutdown_run client b).1 b').2.2 = [] ∧
    get_parameter_run (shutdown_run client b).1 p =
      (.error "Connection not open", []) ∧
    set_parameter_run (shutdown_run client b).1 p v =
      (.error "Connection not open", []) := by
  cases client <;> exact ⟨rfl, rfl, rfl, rfl, rfl, rfl⟩

end Pymeasure
